import Mathlib

/-!
Verification of the PDFTwice native backend (`src/app/src-tauri/src/lib.rs`)
against its specification.

The backend is shallowly embedded: the filesystem is a map from path strings
to optional byte contents, the process-wide `OnceLock` cache is an
`Option (List String)`, and each Tauri command becomes a pure Lean function
with the same structure as the Rust body.  Bytes are modelled as `Nat`.
-/

namespace PDFTwice

/-- A model of the OS filesystem seen by `std::fs`: `files` maps a path to the
byte contents of the file stored there (`none` when no file exists at that
path), and `writeFailure` gives the OS error text when the OS rejects a write
to that path (permission denied, missing parent directory, disk full, ...). -/
structure FileSystem where
  files : String → Option (List Nat)
  writeFailure : String → Option String

/-- OS error text produced when reading a path at which no file exists. -/
def noSuchFileError : String := "No such file or directory (os error 2)"

/-- Model of `std::fs::read`: returns the full contents of the file at `path`,
or the OS error text when no file exists there. -/
def fsRead (fs : FileSystem) (path : String) : Except String (List Nat) :=
  match fs.files path with
  | some bytes => .ok bytes
  | none => .error noSuchFileError

/-- Model of `std::fs::write`: creates or truncates the file at `path` with
exactly `data`, unless the OS rejects the write. -/
def fsWrite (fs : FileSystem) (path : String) (data : List Nat) :
    Except String FileSystem :=
  match fs.writeFailure path with
  | some e => .error e
  | none =>
    .ok { fs with files := fun p => if p = path then some data else fs.files p }

/-- `read_pdf_file` from the source: delegates to `fs::read` and wraps the OS
error as `"Failed to read file {path}: {e}"`. -/
def read_pdf_file (fs : FileSystem) (path : String) : Except String (List Nat) :=
  match fsRead fs path with
  | .ok bytes => .ok bytes
  | .error e => .error ("Failed to read file " ++ path ++ ": " ++ e)

/-- `write_pdf_file` from the source: delegates to `fs::write` and wraps the OS
error as `"Failed to write file {path}: {e}"`. -/
def write_pdf_file (fs : FileSystem) (path : String) (data : List Nat) :
    Except String FileSystem :=
  match fsWrite fs path data with
  | .ok fs2 => .ok fs2
  | .error e => .error ("Failed to write file " ++ path ++ ": " ++ e)

/-- Model of Rust `str::to_lowercase`, acting on the character sequence of
the string (ASCII case mapping, on which Rust's mapping agrees for the
characters relevant to the ".pdf" suffix test). -/
def rustToLower (s : String) : String := ⟨s.data.map Char.toLower⟩

/-- Model of Rust `str::ends_with`: the pattern's characters are a suffix of
the string's characters. -/
def rustEndsWith (s pat : String) : Bool := List.isSuffixOf pat.data s.data

/-- The argument filter inside `run`: skip the executable path, keep the
arguments whose lowercase form ends in `".pdf"` and which exist on disk.
`pathExists` models `std::path::Path::new(arg).exists()` at capture time. -/
def capture_pdf_paths (pathExists : String → Bool) (args : List String) :
    List String :=
  (args.drop 1).filter (fun arg =>
    let lower := rustToLower arg
    rustEndsWith lower ".pdf" && pathExists arg)

/-- A spec-side rendering of §4.1 / §8 of the specification, written from the
spec's words: walk the arguments after the executable path in order, keeping
exactly those whose lowercase form ends with the literal suffix ".pdf" and
for which a filesystem entry exists. -/
def specStartupPathList (pathExists : String → Bool) : List String → List String
  | [] => []
  | a :: rest =>
    if rustEndsWith (rustToLower a) ".pdf" && pathExists a then
      a :: specStartupPathList pathExists rest
    else
      specStartupPathList pathExists rest

theorem specStartupPathList_eq_filter (pathExists : String → Bool)
    (l : List String) :
    specStartupPathList pathExists l =
      l.filter (fun a => rustEndsWith (rustToLower a) ".pdf" && pathExists a) := by
  induction l with
  | nil => rfl
  | cons a rest ih =>
    by_cases h : (rustEndsWith (rustToLower a) ".pdf" && pathExists a) = true
    · simp [specStartupPathList, List.filter, h, ih]
    · simp [specStartupPathList, List.filter, h, ih]

/-- C1: the captured Startup Path List is exactly the subsequence of the
arguments after the executable path whose lowercase form ends in ".pdf" and
which exist on disk at capture time, in original relative order; zero matches
yield the empty sequence. -/
theorem capture_pdf_paths_spec (pathExists : String → Bool)
    (args : List String) :
    capture_pdf_paths pathExists args =
        specStartupPathList pathExists (args.drop 1) ∧
      (capture_pdf_paths pathExists args).Sublist (args.drop 1) ∧
      (∀ a, a ∈ capture_pdf_paths pathExists args →
        rustEndsWith (rustToLower a) ".pdf" = true ∧ pathExists a = true) ∧
      ((∀ a, a ∈ args.drop 1 →
          ¬(rustEndsWith (rustToLower a) ".pdf" = true ∧ pathExists a = true)) →
        capture_pdf_paths pathExists args = []) := by
  refine ⟨?_, ?_, ?_, ?_⟩
  · simp [capture_pdf_paths, specStartupPathList_eq_filter]
  · exact List.filter_sublist _
  · intro a ha
    simp only [capture_pdf_paths, List.mem_filter, Bool.and_eq_true] at ha
    exact ⟨ha.2.1, ha.2.2⟩
  · intro h
    simp only [capture_pdf_paths, List.filter_eq_nil_iff]
    intro a ha
    have := h a ha
    simp only [Bool.and_eq_true]
    intro hcontra
    exact this ⟨hcontra.1, hcontra.2⟩

/-- `OnceLock::set` on the `CLI_PDF_PATHS` static: stores `v` when the slot is
empty (returning `true` for `Ok`), otherwise leaves the stored value unchanged
(returning `false` for `Err`). -/
def onceLockSet (slot : Option (List String)) (v : List String) :
    Option (List String) × Bool :=
  match slot with
  | none => (some v, true)
  | some w => (some w, false)

/-- The capture step of `run`: compute the filtered paths and store them with
`let _ = CLI_PDF_PATHS.set(pdf_paths)`, discarding the `Result`. -/
def captureAndStore (pathExists : String → Bool) (argv : List String)
    (slot : Option (List String)) : Option (List String) :=
  (onceLockSet slot (capture_pdf_paths pathExists argv)).1

/-- `get_cli_pdf_paths` from the source:
`CLI_PDF_PATHS.get().cloned().unwrap_or_default()`. -/
def get_cli_pdf_paths (slot : Option (List String)) : List String :=
  (slot.map id).getD []

theorem onceLockSet_set_set (slot : Option (List String)) (v w : List String) :
    (onceLockSet (onceLockSet slot v).1 w).1 = (onceLockSet slot v).1 := by
  cases slot <;> rfl

/-- C3: storing the Startup Path List is write-once: the first set stores the
computed value, a set on an already-filled slot leaves the stored value
unchanged and surfaces no error (the `Result` is discarded and the step
returns a value), and running the capture step a second time never changes
the result of the first. -/
theorem captureAndStore_write_once (pathExists pathExists2 : String → Bool)
    (argv argv2 : List String) :
    captureAndStore pathExists argv none =
        some (capture_pdf_paths pathExists argv) ∧
      (∀ v, captureAndStore pathExists argv (some v) = some v) ∧
      (∀ slot, captureAndStore pathExists2 argv2
          (captureAndStore pathExists argv slot) =
        captureAndStore pathExists argv slot) := by
  exact ⟨rfl, fun v => rfl, fun slot =>
    onceLockSet_set_set slot (capture_pdf_paths pathExists argv)
      (capture_pdf_paths pathExists2 argv2)⟩

/-- C2: if `write_pdf_file` succeeds on a path then `read_pdf_file` on the same
path succeeds and returns exactly the bytes that were written, for any byte
sequence including the empty one. -/
theorem write_then_read (fs fs2 : FileSystem) (path : String)
    (data : List Nat) (h : write_pdf_file fs path data = .ok fs2) :
    read_pdf_file fs2 path = .ok data := by
  unfold write_pdf_file fsWrite at h
  cases hw : fs.writeFailure path with
  | some e => simp [hw] at h
  | none =>
    simp only [hw] at h
    cases h
    simp [read_pdf_file, fsRead]

/-- A filesystem with no files and no write failures. -/
def emptyFs : FileSystem where
  files := fun _ => none
  writeFailure := fun _ => none

/-- The filesystem reached from `emptyFs` by writing the PDF header bytes to
`"out.pdf"`. -/
def fsAfterHeaderWrite : FileSystem where
  files := fun p => if p = "out.pdf" then some [37, 80, 68, 70] else none
  writeFailure := fun _ => none

theorem write_then_read_witness :
    read_pdf_file fsAfterHeaderWrite "out.pdf" = .ok [37, 80, 68, 70] :=
  write_then_read emptyFs fsAfterHeaderWrite "out.pdf" [37, 80, 68, 70] rfl

/-- `sub` occurs as a contiguous substring of `s`. -/
def strContains (s sub : String) : Prop := ∃ a b, s = a ++ (sub ++ b)

/-- C4: `read_pdf_file` either returns the full byte contents of the file at
the path, or — in particular whenever no file exists at the path — fails with
an error message containing both the failing path and the underlying OS error
text; no partial result is ever returned. -/
theorem read_pdf_file_total_or_fails (fs : FileSystem) (path : String) :
    (∃ bytes, fs.files path = some bytes ∧
        read_pdf_file fs path = .ok bytes) ∨
      (fs.files path = none ∧
        ∃ msg, read_pdf_file fs path = .error msg ∧
          strContains msg path ∧ strContains msg noSuchFileError) := by
  cases hf : fs.files path with
  | some bytes =>
    exact Or.inl ⟨bytes, rfl, by simp [read_pdf_file, fsRead, hf]⟩
  | none =>
    refine Or.inr ⟨rfl, "Failed to read file " ++ path ++ ": " ++ noSuchFileError,
      ?_, ?_, ?_⟩
    · simp [read_pdf_file, fsRead, hf]
    · exact ⟨"Failed to read file ", ": " ++ noSuchFileError, by
        simp [String.append_assoc]⟩
    · exact ⟨"Failed to read file " ++ path ++ ": ", "", by
        simp [String.append_assoc]⟩

/-- The compile-time target platform, from the `cfg(target_os = "windows")`
split in `show_in_folder`. -/
inductive TargetOs where
  | windows
  | other
deriving DecidableEq

/-- A process launch request: program name and its argument list. -/
structure SpawnedProcess where
  program : String
  args : List String
deriving DecidableEq

/-- `show_in_folder` from the source.  On Windows it builds the
`explorer /select, {path}` command and spawns it (`spawnResult` models the OS
outcome of `Command::spawn`); otherwise it returns the fixed error string.
The second component records the processes actually spawned. -/
def show_in_folder (os : TargetOs)
    (spawnResult : SpawnedProcess → Except String Unit) (path : String) :
    Except String Unit × List SpawnedProcess :=
  match os with
  | .windows =>
    let cmd : SpawnedProcess := ⟨"explorer", ["/select,", path]⟩
    match spawnResult cmd with
    | .ok _ => (.ok (), [cmd])
    | .error e => (.error ("Failed to open explorer: " ++ e), [])
  | .other => (.error "Not supported on this OS", [])

/-- C5: on a non-Windows platform, `show_in_folder` always fails immediately
with the unsupported-platform error and spawns no process. -/
theorem show_in_folder_non_windows (os : TargetOs)
    (spawnResult : SpawnedProcess → Except String Unit) (path : String)
    (h : os ≠ .windows) :
    show_in_folder os spawnResult path =
      (.error "Not supported on this OS", []) := by
  cases os with
  | windows => exact absurd rfl h
  | other => rfl

theorem show_in_folder_non_windows_witness :
    show_in_folder .other (fun _ => .ok ()) "/tmp/a.pdf" =
      (.error "Not supported on this OS", []) :=
  show_in_folder_non_windows .other (fun _ => .ok ()) "/tmp/a.pdf" (by decide)

/-- C9: on a non-Windows platform the observable output of `show_in_folder` is
independent of the input path: any two invocations produce identical results,
and the error string is the fixed `"Not supported on this OS"`. -/
theorem show_in_folder_constant_off_windows (os : TargetOs)
    (spawnResult : SpawnedProcess → Except String Unit) (p q : String)
    (h : os ≠ .windows) :
    show_in_folder os spawnResult p = show_in_folder os spawnResult q ∧
      (show_in_folder os spawnResult p).1 = .error "Not supported on this OS" := by
  cases os with
  | windows => exact absurd rfl h
  | other => exact ⟨rfl, rfl⟩

theorem show_in_folder_constant_off_windows_witness :
    show_in_folder .other (fun _ => .ok ()) "/tmp/a.pdf" =
        show_in_folder .other (fun _ => .ok ()) "/home/u/b.pdf" ∧
      (show_in_folder .other (fun _ => .ok ()) "/tmp/a.pdf").1 =
        .error "Not supported on this OS" :=
  show_in_folder_constant_off_windows .other (fun _ => .ok ())
    "/tmp/a.pdf" "/home/u/b.pdf" (by decide)

/-- C6: `get_cli_pdf_paths` never fails: before any capture it returns the
empty sequence, and after the capture step it returns exactly the captured
Startup Path List. -/
theorem get_cli_pdf_paths_never_fails :
    get_cli_pdf_paths none = [] ∧
      (∀ v, get_cli_pdf_paths (some v) = v) ∧
      (∀ pathExists argv,
        get_cli_pdf_paths (captureAndStore pathExists argv none) =
          capture_pdf_paths pathExists argv) :=
  ⟨rfl, fun _ => rfl, fun _ _ => rfl⟩

/-- The environment of one process launch: the raw argument list, the state of
the disk at capture time, whether this is a debug build, and the outcome of
attaching the logging plugin (`Err` models "logger already attached"). -/
structure BootstrapEnv where
  argv : List String
  pathExists : String → Bool
  debugBuild : Bool
  loggerAttach : Except String Unit

/-- The outcome of `run`: either the process aborts during startup with a
fatal error, or it enters the shell's event loop (the *Running* state) with
the stored Startup Path List. -/
inductive BootstrapOutcome where
  | fatalStartup (msg : String)
  | running (storedPaths : Option (List String))

/-- The `setup` closure from the source: in a debug build it attaches the
logging plugin and propagates its failure with `?`; otherwise it does
nothing and returns `Ok(())`. -/
def setupClosure (debugBuild : Bool) (loggerAttach : Except String Unit) :
    Except String Unit :=
  if debugBuild then
    match loggerAttach with
    | .ok _ => .ok ()
    | .error e => .error e
  else
    .ok ()

/-- `run` from the source, composed with the shell runtime's contract.
Modelled from the spec: the GUI-shell runtime (Tauri) is an external
collaborator, and per §4.3 a failure of the `setup` step is "propagated as a
fatal startup error, aborting before entering *Running*" — in the source this
is the `?` inside `setup` followed by `.expect("error while running tauri
application")`.  Everything else (argument capture, the write-once store) is
translated directly from the source. -/
def run (env : BootstrapEnv) (slot : Option (List String)) : BootstrapOutcome :=
  let pdf_paths := capture_pdf_paths env.pathExists env.argv
  let slot2 := (onceLockSet slot pdf_paths).1
  match setupClosure env.debugBuild env.loggerAttach with
  | .error e => .fatalStartup ("error while running tauri application: " ++ e)
  | .ok _ => .running slot2

/-- C7: in a debug build, a failure of the logger attachment step is
propagated as a fatal startup error: `run` ends in `fatalStartup` carrying
the logger error, and in particular never reaches the *Running* state. -/
theorem logger_failure_is_fatal (env : BootstrapEnv) (slot : Option (List String))
    (e : String) (hdebug : env.debugBuild = true)
    (hlog : env.loggerAttach = .error e) :
    run env slot =
        .fatalStartup ("error while running tauri application: " ++ e) ∧
      ∀ paths, run env slot ≠ .running paths := by
  have hrun : run env slot =
      .fatalStartup ("error while running tauri application: " ++ e) := by
    simp [run, setupClosure, hdebug, hlog]
  exact ⟨hrun, fun paths h => by rw [hrun] at h; exact BootstrapOutcome.noConfusion h⟩

theorem logger_failure_is_fatal_witness :
    run ⟨["app"], fun _ => false, true, .error "attempt to set a logger"⟩ none =
        .fatalStartup
          ("error while running tauri application: " ++ "attempt to set a logger") ∧
      ∀ paths,
        run ⟨["app"], fun _ => false, true, .error "attempt to set a logger"⟩ none ≠
          .running paths :=
  logger_failure_is_fatal ⟨["app"], fun _ => false, true, .error "attempt to set a logger"⟩
    none "attempt to set a logger" rfl rfl

/-- C8: every string in the captured Startup Path List is character-for-
character one of the original arguments after the executable path — the
stored value is never lowercased or normalized — and both the existence check
and the (lowercased) suffix test hold of that original-case argument. -/
theorem capture_stores_original_args (pathExists : String → Bool)
    (args : List String) (a : String)
    (ha : a ∈ capture_pdf_paths pathExists args) :
    a ∈ args.drop 1 ∧ pathExists a = true ∧
      rustEndsWith (rustToLower a) ".pdf" = true := by
  simp only [capture_pdf_paths, List.mem_filter, Bool.and_eq_true] at ha
  exact ⟨ha.1, ha.2.2, ha.2.1⟩

theorem capture_stores_original_args_witness :
    "Doc.PDF" ∈ (["app", "Doc.PDF"] : List String).drop 1 ∧
      (fun _ => true) "Doc.PDF" = true ∧
      rustEndsWith (rustToLower "Doc.PDF") ".pdf" = true :=
  capture_stores_original_args (fun _ => true) ["app", "Doc.PDF"] "Doc.PDF"
    (by decide)

/-- The program state visible to the command surface: the `CLI_PDF_PATHS`
slot together with the filesystem. -/
structure AppState where
  cliPdfPaths : Option (List String)
  fs : FileSystem

/-- `get_cli_pdf_paths` as a state transformer on the whole program state:
the body only reads the static and clones the stored list, so the state
passes through untouched. -/
def get_cli_pdf_paths_cmd (s : AppState) : List String × AppState :=
  (get_cli_pdf_paths s.cliPdfPaths, s)

/-- C10: `get_cli_pdf_paths` is a pure read: it leaves the whole program
state unchanged, its result is a function of the stored slot alone (equal
stored slots give equal results whatever the rest of the state), and the
result is the stored list (or `[]` when unset). -/
theorem get_cli_pdf_paths_pure (s : AppState) (slot : Option (List String))
    (fs1 fs2 : FileSystem) :
    (get_cli_pdf_paths_cmd s).2 = s ∧
      (get_cli_pdf_paths_cmd ⟨slot, fs1⟩).1 =
        (get_cli_pdf_paths_cmd ⟨slot, fs2⟩).1 ∧
      (get_cli_pdf_paths_cmd s).1 = (s.cliPdfPaths.map id).getD [] :=
  ⟨rfl, rfl, rfl⟩

end PDFTwice
